import Mathlib

/-!
# RISC-V Sv39 page-table attribute algebra (`libcpu/risc-v/virt64/riscv_mmu.h`)

A shallow embedding of the header's constants, classification macros and the
three permission functions `rt_hw_mmu_attr_rm_perm`, `rt_hw_mmu_attr_add_perm`
and `rt_hw_mmu_attr_test_perm`.

Conventions of the embedding:

* `size_t` is a 64-bit unsigned word, represented by a `Nat` below `2 ^ 64`;
* `int` expressions (`~PTE_W`) are computed in `Int` and converted to `size_t`
  by reduction modulo `2 ^ 64`, as C's usual arithmetic conversions do;
* `enum rt_hw_mmu_prot_t` values are the enumerators' integer values (`Nat`);
* a function that can reach `RT_ASSERT` returns `Except AssertFailure _`.
-/

namespace RiscvMmu

/-! ## Machine words -/

/-- Width of `size_t` on the 64-bit RISC-V port. -/
def SIZE_T_BITS : Nat := 64

/-- Conversion of a C `int` value to `size_t`: reduction modulo `2 ^ 64`. -/
def size_t_of_int (i : Int) : Nat := (i % (2 : Int) ^ SIZE_T_BITS).toNat

/-- C's `!!x`: `1` when `x` is non-zero, `0` otherwise. -/
def not_not (x : Nat) : Nat := if x = 0 then 0 else 1

/-! ## Entry flag bits (architecture header, not part of this file's source) -/

/-- Modelled from the spec: the valid flag of the architecture's entry format
(`PTE_V`, bit 0); its defining header is not among the sources. -/
def PTE_V : Nat := 0x001

/-- Modelled from the spec: the readable flag (`PTE_R`, bit 1). -/
def PTE_R : Nat := 0x002

/-- Modelled from the spec: the writable flag (`PTE_W`, bit 2), an `int`
constant of the architecture header. -/
def PTE_W : Nat := 0x004

/-- Modelled from the spec: the executable flag (`PTE_X`, bit 3). -/
def PTE_X : Nat := 0x008

/-- Modelled from the spec: the user-accessible flag (`PTE_U`, bit 4). -/
def PTE_U : Nat := 0x010

/-- Modelled from the spec: the global flag (`PTE_G`, bit 5). -/
def PTE_G : Nat := 0x020

/-- Modelled from the spec: the helper `__MASKVALUE(value, maskvalue)` of the
architecture header, the bits of `value` selected by `maskvalue`. -/
def __MASKVALUE (value maskvalue : Nat) : Nat := value &&& maskvalue

/-- Modelled from the spec: the helper `__SIZE(bit)` of the architecture
header, the unsigned 64-bit word `1UL << bit`. -/
def __SIZE (bit : Nat) : Nat := (1 <<< bit) % 2 ^ SIZE_T_BITS

/-- Modelled from the spec: the helper `__MASK(bit)` of the architecture
header, `__SIZE(bit) - 1UL` in unsigned 64-bit arithmetic (the low `bit` bits
set). -/
def __MASK (bit : Nat) : Nat := (__SIZE bit + 2 ^ SIZE_T_BITS - 1) % 2 ^ SIZE_T_BITS

/-! ## Address layout -/

def PAGE_OFFSET_SHIFT : Nat := 0
def PAGE_OFFSET_BIT : Nat := 12
def PAGE_SIZE : Nat := __SIZE PAGE_OFFSET_BIT
def PAGE_OFFSET_MASK : Nat := __MASK PAGE_OFFSET_BIT
def VPN0_SHIFT : Nat := PAGE_OFFSET_SHIFT + PAGE_OFFSET_BIT
def VPN0_BIT : Nat := 9
def VPN1_SHIFT : Nat := VPN0_SHIFT + VPN0_BIT
def VPN1_BIT : Nat := 9
def VPN2_SHIFT : Nat := VPN1_SHIFT + VPN1_BIT
def VPN2_BIT : Nat := 9

def PPN0_SHIFT : Nat := PAGE_OFFSET_SHIFT + PAGE_OFFSET_BIT
def PPN0_BIT : Nat := 9
def PPN1_SHIFT : Nat := PPN0_SHIFT + PPN0_BIT
def PPN1_BIT : Nat := 9
def PPN2_SHIFT : Nat := PPN1_SHIFT + PPN1_BIT
def PPN2_BIT : Nat := 26

def L1_PAGE_SIZE : Nat := __SIZE (PAGE_OFFSET_BIT + VPN0_BIT + VPN1_BIT)
def L2_PAGE_SIZE : Nat := __SIZE (PAGE_OFFSET_BIT + VPN0_BIT)
def L3_PAGE_SIZE : Nat := __SIZE PAGE_OFFSET_BIT

def ARCH_ADDRESS_WIDTH_BITS : Nat := 64

def PHYSICAL_ADDRESS_WIDTH_BITS : Nat := 56

/-! ## Attribute presets and classification macros -/

def PAGE_ATTR_NEXT_LEVEL : Nat := 0
def PAGE_ATTR_RWX : Nat := PTE_X ||| PTE_W ||| PTE_R
def PAGE_ATTR_READONLY : Nat := PTE_R
def PAGE_ATTR_READEXECUTE : Nat := PTE_X ||| PTE_R

def PAGE_ATTR_USER : Nat := PTE_U
def PAGE_ATTR_SYSTEM : Nat := 0

def PAGE_DEFAULT_ATTR_LEAF : Nat := PAGE_ATTR_RWX ||| PAGE_ATTR_USER ||| PTE_V ||| PTE_G
def PAGE_DEFAULT_ATTR_NEXT : Nat := PAGE_ATTR_NEXT_LEVEL ||| PTE_V ||| PTE_G

def PAGE_IS_LEAF (pte : Nat) : Nat := __MASKVALUE pte PAGE_ATTR_RWX

def PTE_USED (pte : Nat) : Nat := __MASKVALUE pte PTE_V

/-! ## SATP encoding and mapping presets -/

def SATP_MODE_OFFSET : Nat := 60
def SATP_MODE_BARE : Nat := 0
def SATP_MODE_SV39 : Nat := 8
def SATP_MODE_SV48 : Nat := 9
def SATP_MODE_SV57 : Nat := 10
def SATP_MODE_SV64 : Nat := 11

def ARCH_VADDR_WIDTH : Nat := 39
def SATP_MODE : Nat := SATP_MODE_SV39

def MMU_MAP_K_DEVICE : Nat := PTE_G ||| PTE_W ||| PTE_R ||| PTE_V
def MMU_MAP_K_RWCB : Nat := PTE_G ||| PTE_X ||| PTE_W ||| PTE_R ||| PTE_V
def MMU_MAP_K_RW : Nat := PTE_G ||| PTE_X ||| PTE_W ||| PTE_R ||| PTE_V
def MMU_MAP_U_RWCB : Nat := PTE_U ||| PTE_X ||| PTE_W ||| PTE_R ||| PTE_V
def MMU_MAP_U_RWCB_XN : Nat := PTE_U ||| PTE_W ||| PTE_R ||| PTE_V
def MMU_MAP_U_RW : Nat := PTE_U ||| PTE_X ||| PTE_W ||| PTE_R ||| PTE_V

def PTE_XWR_MASK : Nat := 0xe

def ARCH_PAGE_SIZE : Nat := PAGE_SIZE
def ARCH_PAGE_MASK : Nat := ARCH_PAGE_SIZE - 1
def ARCH_PAGE_SHIFT : Nat := PAGE_OFFSET_BIT
def ARCH_INDEX_WIDTH : Nat := 9
def ARCH_INDEX_SIZE : Nat := (1 <<< ARCH_INDEX_WIDTH) % 2 ^ SIZE_T_BITS
def ARCH_INDEX_MASK : Nat := ARCH_INDEX_SIZE - 1

/-! ## `enum rt_hw_mmu_prot_t` -/

def RT_HW_MMU_PROT_READ : Nat := 0
def RT_HW_MMU_PROT_WRITE : Nat := 1
def RT_HW_MMU_PROT_EXECUTE : Nat := 2
def RT_HW_MMU_PROT_KERNEL : Nat := 3
def RT_HW_MMU_PROT_USER : Nat := 4
def RT_HW_MMU_PROT_CACHE : Nat := 5

/-! ## Assertions -/

/-- The outcome of a failed `RT_ASSERT` in a build where assertions stop the
caller. -/
inductive AssertFailure where
  | rt_assert_failed
deriving DecidableEq, Repr

deriving instance DecidableEq for Except

/-- Modelled from the spec: `RT_ASSERT(ex)`, defined outside the sources.
With `aborting = true` a false `ex` stops the function (it returns nothing);
with `aborting = false` the assertion is compiled away or its handler returns,
and execution continues. -/
def RT_ASSERT (aborting : Bool) (ex : Nat) : Except AssertFailure Unit :=
  if aborting && ex == 0 then .error .rt_assert_failed else .ok ()

/-! ## Permission functions -/

/-- `rt_hw_mmu_attr_rm_perm`: the `case` for write+user has no `break`, so
control always continues into `default: RT_ASSERT(0)` before `return attr`. -/
def rt_hw_mmu_attr_rm_perm (aborting : Bool) (attr : Nat) (prot : Nat) :
    Except AssertFailure Nat :=
  let attr1 :=
    if prot = (RT_HW_MMU_PROT_WRITE ||| RT_HW_MMU_PROT_USER) then
      attr &&& size_t_of_int (~~~ (PTE_W : Int))
    else attr
  match RT_ASSERT aborting 0 with
  | .error e => .error e
  | .ok _ => .ok attr1

/-- `rt_hw_mmu_attr_add_perm`: same shape, `attr |= PTE_W` in the one case. -/
def rt_hw_mmu_attr_add_perm (aborting : Bool) (attr : Nat) (prot : Nat) :
    Except AssertFailure Nat :=
  let attr1 :=
    if prot = (RT_HW_MMU_PROT_WRITE ||| RT_HW_MMU_PROT_USER) then
      attr ||| PTE_W
    else attr
  match RT_ASSERT aborting 0 with
  | .error e => .error e
  | .ok _ => .ok attr1

/-- `rt_hw_mmu_attr_test_perm`: `rc` starts at `0` and becomes
`!!(attr & PTE_W)` in the one case; the result is an `rt_bool_t` integer. -/
def rt_hw_mmu_attr_test_perm (aborting : Bool) (attr : Nat) (prot : Nat) :
    Except AssertFailure Nat :=
  let rc0 : Nat := 0
  let rc :=
    if prot = (RT_HW_MMU_PROT_WRITE ||| RT_HW_MMU_PROT_USER) then
      not_not (attr &&& PTE_W)
    else rc0
  match RT_ASSERT aborting 0 with
  | .error e => .error e
  | .ok _ => .ok rc

/-- The write+user request, `RT_HW_MMU_PROT_WRITE | RT_HW_MMU_PROT_USER`. -/
def WRITE_USER : Nat := RT_HW_MMU_PROT_WRITE ||| RT_HW_MMU_PROT_USER

/-! ## Field extraction and SATP packing (callers of the layout constants) -/

/-- Modelled from the spec: extraction of one page-table index from a 64-bit
address, the field of width `bit` at offset `shift`, computed as
`(a >> shift) & __MASK(bit)`; no extraction routine is among the sources. -/
def vpn_field (a shift bit : Nat) : Nat := (a >>> shift) &&& __MASK bit

/-- Modelled from the spec: the in-page offset of an address,
`a & PAGE_OFFSET_MASK`. -/
def page_offset (a : Nat) : Nat := a &&& PAGE_OFFSET_MASK

/-- Modelled from the spec: the SATP word, the translation mode placed at bit
offset `SATP_MODE_OFFSET` packed together with the root table's page-frame
number, `(mode << SATP_MODE_OFFSET) | ppn`; the routine that installs it
(`mmu_set_pagetable`) is only declared in the sources. -/
def satp_word (mode ppn : Nat) : Nat := (mode <<< SATP_MODE_OFFSET) ||| ppn

/-! ## Auxiliary facts -/

theorem WRITE_USER_eq : WRITE_USER = 5 := by decide

theorem not_w_mask : size_t_of_int (~~~ (PTE_W : Int)) = (2 ^ 64 - 1) ^^^ 2 ^ 2 := by
  decide

theorem PTE_W_testBit (i : Nat) : PTE_W.testBit i = decide (i = 2) := by
  have h : PTE_W = 2 ^ 2 := by decide
  rw [h, Nat.testBit_two_pow]
  by_cases hi : i = 2
  · simp [hi]
  · have : ¬ (2 = i) := fun e => hi e.symm
    simp [hi, this]

theorem not_w_mask_testBit (i : Nat) :
    (size_t_of_int (~~~ (PTE_W : Int))).testBit i = (decide (i < 64) && !decide (i = 2)) := by
  rw [not_w_mask, Nat.testBit_xor, Nat.testBit_two_pow_sub_one, Nat.testBit_two_pow]
  by_cases hi : i = 2
  · subst hi; decide
  · have : ¬ (2 = i) := fun e => hi e.symm
    simp [hi, this]

theorem word_testBit_high {attr : Nat} (h : attr < 2 ^ 64) {i : Nat} (hi : 64 ≤ i) :
    attr.testBit i = false :=
  Nat.testBit_lt_two_pow (lt_of_lt_of_le h (Nat.pow_le_pow_right (by decide) hi))

/-- The release-build value of `rt_hw_mmu_attr_rm_perm`. -/
theorem rm_perm_release (attr prot : Nat) :
    rt_hw_mmu_attr_rm_perm false attr prot =
      .ok (if prot = WRITE_USER then attr &&& size_t_of_int (~~~ (PTE_W : Int)) else attr) := by
  simp [rt_hw_mmu_attr_rm_perm, RT_ASSERT, WRITE_USER]

/-- The release-build value of `rt_hw_mmu_attr_add_perm`. -/
theorem add_perm_release (attr prot : Nat) :
    rt_hw_mmu_attr_add_perm false attr prot =
      .ok (if prot = WRITE_USER then attr ||| PTE_W else attr) := by
  simp [rt_hw_mmu_attr_add_perm, RT_ASSERT, WRITE_USER]

/-- The release-build value of `rt_hw_mmu_attr_test_perm`. -/
theorem test_perm_release (attr prot : Nat) :
    rt_hw_mmu_attr_test_perm false attr prot =
      .ok (if prot = WRITE_USER then not_not (attr &&& PTE_W) else 0) := by
  simp [rt_hw_mmu_attr_test_perm, RT_ASSERT, WRITE_USER]

theorem and_not_w_and_w (attr : Nat) :
    (attr &&& size_t_of_int (~~~ (PTE_W : Int))) &&& PTE_W = 0 := by
  apply Nat.eq_of_testBit_eq
  intro i
  simp only [Nat.testBit_and, not_w_mask_testBit, PTE_W_testBit, Nat.zero_testBit]
  by_cases hi : i = 2 <;> simp [hi]

theorem or_w_and_w (attr : Nat) : (attr ||| PTE_W) &&& PTE_W = PTE_W := by
  apply Nat.eq_of_testBit_eq
  intro i
  simp only [Nat.testBit_and, Nat.testBit_or, PTE_W_testBit]
  by_cases hi : i = 2 <;> simp [hi]

theorem not_w_mask_eq_sub : size_t_of_int (~~~ (PTE_W : Int)) = 2 ^ SIZE_T_BITS - 1 - PTE_W := by
  decide

theorem and_low_mask (x m : Nat) (hm : m < 2 ^ 4) : x &&& m = (x % 2 ^ 4) &&& m := by
  apply Nat.eq_of_testBit_eq
  intro i
  rw [Nat.testBit_and, Nat.testBit_and, Nat.testBit_mod_two_pow]
  by_cases hi : i < 4
  · simp [hi]
  · have : m.testBit i = false :=
      Nat.testBit_lt_two_pow (lt_of_lt_of_le hm (Nat.pow_le_pow_right (by decide) (Nat.le_of_not_lt hi)))
    simp [this]

theorem testBit_low (x k : Nat) (hk : k < 4) : x.testBit k = (x % 2 ^ 4).testBit k := by
  rw [Nat.testBit_mod_two_pow]
  simp [hk]

theorem and_w_cases (x : Nat) : x &&& PTE_W = 0 ∨ x &&& PTE_W = PTE_W := by
  rw [and_low_mask x PTE_W (by decide)]
  have h : x % 2 ^ 4 < 16 := Nat.mod_lt _ (by decide)
  generalize x % 2 ^ 4 = y at h
  interval_cases y <;> decide

theorem or_w_eq_self_iff (x : Nat) : x ||| PTE_W = x ↔ x &&& PTE_W = PTE_W := by
  constructor
  · intro h
    rw [← h]
    exact or_w_and_w x
  · intro h
    apply Nat.eq_of_testBit_eq
    intro i
    have hi := congrArg (fun n => Nat.testBit n i) h
    simp only [Nat.testBit_and] at hi
    rw [Nat.testBit_or]
    cases hx : x.testBit i <;> cases hw : PTE_W.testBit i <;> simp_all

theorem not_not_and_w (x : Nat) :
    not_not (x &&& PTE_W) = if x &&& PTE_W = PTE_W then 1 else 0 := by
  rcases and_w_cases x with h | h
  · rw [h]; decide
  · rw [h]; decide

/-! ## Removing, adding and testing the write+user permission -/

/-- C1: in a build where `RT_ASSERT` does not abort, for every 64-bit attribute
word `attr` the call `rt_hw_mmu_attr_rm_perm(attr, WRITE | USER)` returns a word
whose `PTE_W` bit is clear and whose every other bit is the bit of `attr`; the
word is `attr & ~PTE_W` with the complement taken on the full 64-bit width. -/
theorem rm_perm_write_user_clears_only_write (attr : Nat) (h : attr < 2 ^ SIZE_T_BITS) :
    ∃ r, rt_hw_mmu_attr_rm_perm false attr (RT_HW_MMU_PROT_WRITE ||| RT_HW_MMU_PROT_USER) = .ok r
      ∧ r &&& PTE_W = 0
      ∧ (∀ i, PTE_W.testBit i = false → r.testBit i = attr.testBit i)
      ∧ r = attr &&& (2 ^ SIZE_T_BITS - 1 - PTE_W) := by
  refine ⟨attr &&& size_t_of_int (~~~ (PTE_W : Int)), ?_, and_not_w_and_w attr, ?_, ?_⟩
  · rw [rm_perm_release]; simp [WRITE_USER]
  · intro i hi
    rw [PTE_W_testBit] at hi
    have hi2 : i ≠ 2 := by simpa using hi
    rw [Nat.testBit_and, not_w_mask_testBit]
    by_cases h64 : i < 64
    · simp [h64, hi2]
    · have : attr.testBit i = false := word_testBit_high h (Nat.le_of_not_lt h64)
      simp [this]
  · rw [not_w_mask_eq_sub]

/-- Witness for C1 at the leaf default word `0x3f`. -/
theorem rm_perm_write_user_clears_only_write_witness :
    (0x3f : Nat) < 2 ^ SIZE_T_BITS ∧
    ∃ r, rt_hw_mmu_attr_rm_perm false 0x3f (RT_HW_MMU_PROT_WRITE ||| RT_HW_MMU_PROT_USER) = .ok r
      ∧ r &&& PTE_W = 0
      ∧ (∀ i, PTE_W.testBit i = false → r.testBit i = (0x3f : Nat).testBit i)
      ∧ r = 0x3f &&& (2 ^ SIZE_T_BITS - 1 - PTE_W) :=
  ⟨by decide, rm_perm_write_user_clears_only_write 0x3f (by decide)⟩

/-- C2: in a build where `RT_ASSERT` does not abort, for every attribute word
`attr` the call `rt_hw_mmu_attr_add_perm(attr, WRITE | USER)` returns a word
whose `PTE_W` bit is set and whose every other bit is the bit of `attr`; the
word is `attr | PTE_W`. -/
theorem add_perm_write_user_sets_only_write (attr : Nat) :
    ∃ r, rt_hw_mmu_attr_add_perm false attr (RT_HW_MMU_PROT_WRITE ||| RT_HW_MMU_PROT_USER) = .ok r
      ∧ r &&& PTE_W = PTE_W
      ∧ (∀ i, PTE_W.testBit i = false → r.testBit i = attr.testBit i)
      ∧ r = attr ||| PTE_W := by
  refine ⟨attr ||| PTE_W, ?_, or_w_and_w attr, ?_, rfl⟩
  · rw [add_perm_release]; simp [WRITE_USER]
  · intro i hi
    rw [Nat.testBit_or, hi]; simp

/-- C3: in a build where `RT_ASSERT` does not abort, for every attribute word
`attr` the call `rt_hw_mmu_attr_test_perm(attr, WRITE | USER)` returns `1`
exactly when every bit that the write+user request stands for in the mutators
(the bits `rt_hw_mmu_attr_add_perm` sets, i.e. the mask `PTE_W`) is set in
`attr`, and `0` otherwise; the result is always `0` or `1`. -/
theorem test_perm_write_user_iff (attr : Nat) :
    ∃ rc, rt_hw_mmu_attr_test_perm false attr (RT_HW_MMU_PROT_WRITE ||| RT_HW_MMU_PROT_USER) = .ok rc
      ∧ (rc = 1 ↔ attr &&& PTE_W = PTE_W)
      ∧ (rc = 0 ↔ ¬ (attr &&& PTE_W = PTE_W))
      ∧ (rc = 0 ∨ rc = 1)
      ∧ (rc = 1 ↔
          rt_hw_mmu_attr_add_perm false attr (RT_HW_MMU_PROT_WRITE ||| RT_HW_MMU_PROT_USER)
            = .ok attr) := by
  refine ⟨if attr &&& PTE_W = PTE_W then 1 else 0, ?_, ?_, ?_, ?_, ?_⟩
  · rw [test_perm_release, not_not_and_w]; simp [WRITE_USER]
  · by_cases h : attr &&& PTE_W = PTE_W <;> simp [h]
  · by_cases h : attr &&& PTE_W = PTE_W <;> simp [h]
  · by_cases h : attr &&& PTE_W = PTE_W <;> simp [h]
  · rw [add_perm_release]
    have hw : (RT_HW_MMU_PROT_WRITE ||| RT_HW_MMU_PROT_USER) = WRITE_USER := rfl
    rw [hw, if_pos rfl]
    have key := or_w_eq_self_iff attr
    by_cases h : attr &&& PTE_W = PTE_W
    · simp [h, key.mpr h]
    · have : ¬ (attr ||| PTE_W = attr) := fun e => h (key.mp e)
      simp [h, this]

/-- C4: for every attribute word `a`, removing write+user and then testing
write+user (in a build where `RT_ASSERT` does not abort) reports false (`0`);
and in no build does the test after the removal report a non-zero value. -/
theorem test_after_rm_write_user_false (a : Nat) :
    (∃ a1, rt_hw_mmu_attr_rm_perm false a (RT_HW_MMU_PROT_WRITE ||| RT_HW_MMU_PROT_USER) = .ok a1
      ∧ rt_hw_mmu_attr_test_perm false a1 (RT_HW_MMU_PROT_WRITE ||| RT_HW_MMU_PROT_USER) = .ok 0)
    ∧ ∀ (aborting : Bool) (a1 rc : Nat),
        rt_hw_mmu_attr_rm_perm aborting a (RT_HW_MMU_PROT_WRITE ||| RT_HW_MMU_PROT_USER) = .ok a1 →
        rt_hw_mmu_attr_test_perm aborting a1 (RT_HW_MMU_PROT_WRITE ||| RT_HW_MMU_PROT_USER) = .ok rc →
        rc = 0 := by
  have hw : (RT_HW_MMU_PROT_WRITE ||| RT_HW_MMU_PROT_USER) = WRITE_USER := rfl
  constructor
  · refine ⟨a &&& size_t_of_int (~~~ (PTE_W : Int)), ?_, ?_⟩
    · rw [rm_perm_release, hw, if_pos rfl]
    · rw [test_perm_release, hw, if_pos rfl, and_not_w_and_w]; rfl
  · intro aborting a1 rc h1 h2
    cases aborting
    · rw [rm_perm_release, hw, if_pos rfl] at h1
      rw [test_perm_release, hw, if_pos rfl] at h2
      injection h1 with h1
      injection h2 with h2
      rw [← h2, ← h1, and_not_w_and_w]; rfl
    · simp [rt_hw_mmu_attr_rm_perm, RT_ASSERT] at h1

/-- C5: for every attribute word `a`, adding write+user and then testing
write+user (in a build where `RT_ASSERT` does not abort) reports true (`1`). -/
theorem test_after_add_write_user_true (a : Nat) :
    ∃ a1, rt_hw_mmu_attr_add_perm false a (RT_HW_MMU_PROT_WRITE ||| RT_HW_MMU_PROT_USER) = .ok a1
      ∧ rt_hw_mmu_attr_test_perm false a1 (RT_HW_MMU_PROT_WRITE ||| RT_HW_MMU_PROT_USER) = .ok 1 := by
  have hw : (RT_HW_MMU_PROT_WRITE ||| RT_HW_MMU_PROT_USER) = WRITE_USER := rfl
  refine ⟨a ||| PTE_W, ?_, ?_⟩
  · rw [add_perm_release, hw, if_pos rfl]
  · rw [test_perm_release, hw, if_pos rfl, or_w_and_w]; rfl

/-- C6: in a build where `RT_ASSERT` does not abort, both mutators are
idempotent for every attribute word `a` and every `prot` value `p`, supported
or not: applying `rt_hw_mmu_attr_rm_perm` (resp. `rt_hw_mmu_attr_add_perm`)
a second time with the same `p` returns the word the first call returned. -/
theorem rm_add_perm_idempotent (a p : Nat) :
    (∃ a1, rt_hw_mmu_attr_rm_perm false a p = .ok a1
      ∧ rt_hw_mmu_attr_rm_perm false a1 p = .ok a1)
    ∧ (∃ a1, rt_hw_mmu_attr_add_perm false a p = .ok a1
      ∧ rt_hw_mmu_attr_add_perm false a1 p = .ok a1) := by
  constructor
  · refine ⟨_, rm_perm_release a p, ?_⟩
    rw [rm_perm_release]
    by_cases hp : p = WRITE_USER
    · simp only [hp, if_true, Nat.and_assoc, Nat.and_self]
    · simp only [hp, if_false]
  · refine ⟨_, add_perm_release a p, ?_⟩
    rw [add_perm_release]
    by_cases hp : p = WRITE_USER
    · simp only [hp, if_true, Nat.or_assoc, Nat.or_self]
    · simp only [hp, if_false]

/-- C7: in a build where a failed `RT_ASSERT` aborts, for every attribute word
and every `prot` value other than write+user, each of `rt_hw_mmu_attr_rm_perm`,
`rt_hw_mmu_attr_add_perm` and `rt_hw_mmu_attr_test_perm` ends in the assertion
failure and returns no attribute word or boolean. -/
theorem unsupported_prot_asserts (attr prot : Nat)
    (_h : prot ≠ (RT_HW_MMU_PROT_WRITE ||| RT_HW_MMU_PROT_USER)) :
    rt_hw_mmu_attr_rm_perm true attr prot = .error .rt_assert_failed
    ∧ rt_hw_mmu_attr_add_perm true attr prot = .error .rt_assert_failed
    ∧ rt_hw_mmu_attr_test_perm true attr prot = .error .rt_assert_failed
    ∧ (∀ r, rt_hw_mmu_attr_rm_perm true attr prot ≠ .ok r)
    ∧ (∀ r, rt_hw_mmu_attr_add_perm true attr prot ≠ .ok r)
    ∧ (∀ rc, rt_hw_mmu_attr_test_perm true attr prot ≠ .ok rc) := by
  simp [rt_hw_mmu_attr_rm_perm, rt_hw_mmu_attr_add_perm, rt_hw_mmu_attr_test_perm, RT_ASSERT]

/-- Witness for C7: a read+user request (`0 | 4 = 4`) on the word `0x13`. -/
theorem unsupported_prot_asserts_witness :
    (RT_HW_MMU_PROT_READ ||| RT_HW_MMU_PROT_USER) ≠ (RT_HW_MMU_PROT_WRITE ||| RT_HW_MMU_PROT_USER)
    ∧ rt_hw_mmu_attr_rm_perm true 0x13 (RT_HW_MMU_PROT_READ ||| RT_HW_MMU_PROT_USER)
        = .error .rt_assert_failed
    ∧ rt_hw_mmu_attr_test_perm true 0x13 (RT_HW_MMU_PROT_READ ||| RT_HW_MMU_PROT_USER)
        = .error .rt_assert_failed :=
  ⟨by decide,
    (unsupported_prot_asserts 0x13 (RT_HW_MMU_PROT_READ ||| RT_HW_MMU_PROT_USER) (by decide)).1,
    (unsupported_prot_asserts 0x13 (RT_HW_MMU_PROT_READ ||| RT_HW_MMU_PROT_USER) (by decide)).2.2.1⟩

/-! ## The leaf-default round trip -/

/-- C8 (as stated, refuted): starting from `0 | PAGE_DEFAULT_ATTR_LEAF`, adding
write+user and then removing write+user does not give back
`PAGE_DEFAULT_ATTR_LEAF`, in no build. -/
theorem leaf_default_round_trip_not_restored :
    ¬ ∃ (aborting : Bool) (a1 : Nat),
        rt_hw_mmu_attr_add_perm aborting (0 ||| PAGE_DEFAULT_ATTR_LEAF)
            (RT_HW_MMU_PROT_WRITE ||| RT_HW_MMU_PROT_USER) = .ok a1
        ∧ rt_hw_mmu_attr_rm_perm aborting a1
            (RT_HW_MMU_PROT_WRITE ||| RT_HW_MMU_PROT_USER) = .ok PAGE_DEFAULT_ATTR_LEAF := by
  rintro ⟨aborting, a1, h1, h2⟩
  have hw : (RT_HW_MMU_PROT_WRITE ||| RT_HW_MMU_PROT_USER) = WRITE_USER := rfl
  cases aborting
  · rw [add_perm_release, hw, if_pos rfl] at h1
    injection h1 with h1
    subst h1
    revert h2
    decide
  · revert h1
    simp [rt_hw_mmu_attr_add_perm, RT_ASSERT]

/-- C8 (amended): starting from `0 | PAGE_DEFAULT_ATTR_LEAF`, adding write+user
and then removing write+user (in a build where `RT_ASSERT` does not abort)
yields `PAGE_DEFAULT_ATTR_LEAF` with the write bit cleared, the word `0x3b`
(`R|X|U|V|G`), which differs from `PAGE_DEFAULT_ATTR_LEAF` in exactly the
`PTE_W` bit. -/
theorem leaf_default_round_trip_clears_write :
    ∃ a1 r,
      rt_hw_mmu_attr_add_perm false (0 ||| PAGE_DEFAULT_ATTR_LEAF)
          (RT_HW_MMU_PROT_WRITE ||| RT_HW_MMU_PROT_USER) = .ok a1
      ∧ rt_hw_mmu_attr_rm_perm false a1 (RT_HW_MMU_PROT_WRITE ||| RT_HW_MMU_PROT_USER) = .ok r
      ∧ r = PAGE_DEFAULT_ATTR_LEAF &&& (2 ^ SIZE_T_BITS - 1 - PTE_W)
      ∧ r = 0x3b
      ∧ r = (PTE_X ||| PTE_R ||| PTE_U ||| PTE_V ||| PTE_G)
      ∧ r ≠ PAGE_DEFAULT_ATTR_LEAF
      ∧ r ^^^ PAGE_DEFAULT_ATTR_LEAF = PTE_W :=
  ⟨0x3f, 0x3b, by decide, by decide, by decide, rfl, by decide, by decide, by decide⟩

/-! ## Presets and classification -/

/-- C9: `PAGE_IS_LEAF(PAGE_DEFAULT_ATTR_NEXT)` is zero and
`PAGE_IS_LEAF(PAGE_DEFAULT_ATTR_LEAF)` is non-zero; `PAGE_DEFAULT_ATTR_LEAF` is
exactly `R|W|X|U|V|G`, `PAGE_DEFAULT_ATTR_NEXT` is exactly `V|G`, and both
presets satisfy `PTE_USED`. -/
theorem default_presets_classification :
    PAGE_IS_LEAF PAGE_DEFAULT_ATTR_NEXT = 0
    ∧ PAGE_IS_LEAF PAGE_DEFAULT_ATTR_LEAF ≠ 0
    ∧ PAGE_DEFAULT_ATTR_LEAF = (PTE_R ||| PTE_W ||| PTE_X ||| PTE_U ||| PTE_V ||| PTE_G)
    ∧ PAGE_DEFAULT_ATTR_NEXT = (PTE_V ||| PTE_G)
    ∧ PTE_USED PAGE_DEFAULT_ATTR_LEAF ≠ 0
    ∧ PTE_USED PAGE_DEFAULT_ATTR_NEXT ≠ 0 := by
  decide

/-- C10: for every entry word `pte`, `PAGE_IS_LEAF(pte)` is non-zero iff at
least one of the X, W, R bits (bits 3, 2, 1) of `pte` is set, which is the same
as `(pte & PTE_XWR_MASK) != 0` with `PTE_XWR_MASK = 0xe = PAGE_ATTR_RWX`; and
`PTE_USED(pte)` is non-zero iff the valid bit `PTE_V` (bit 0) of `pte` is
set. -/
theorem leaf_and_used_predicates (pte : Nat) :
    (PAGE_IS_LEAF pte ≠ 0 ↔
      (pte.testBit 3 = true ∨ pte.testBit 2 = true ∨ pte.testBit 1 = true))
    ∧ (PAGE_IS_LEAF pte ≠ 0 ↔ (pte &&& PTE_X ≠ 0 ∨ pte &&& PTE_W ≠ 0 ∨ pte &&& PTE_R ≠ 0))
    ∧ (PAGE_IS_LEAF pte ≠ 0 ↔ pte &&& PTE_XWR_MASK ≠ 0)
    ∧ PTE_XWR_MASK = 0xe
    ∧ PAGE_ATTR_RWX = PTE_XWR_MASK
    ∧ PTE_R = 2 ^ 1 ∧ PTE_W = 2 ^ 2 ∧ PTE_X = 2 ^ 3 ∧ PTE_V = 2 ^ 0
    ∧ (PTE_USED pte ≠ 0 ↔ pte.testBit 0 = true)
    ∧ (PTE_USED pte ≠ 0 ↔ pte &&& PTE_V ≠ 0) := by
  have t0 : pte.testBit 0 = (pte % 2 ^ 4).testBit 0 := testBit_low pte 0 (by decide)
  have t1 : pte.testBit 1 = (pte % 2 ^ 4).testBit 1 := testBit_low pte 1 (by decide)
  have t2 : pte.testBit 2 = (pte % 2 ^ 4).testBit 2 := testBit_low pte 2 (by decide)
  have t3 : pte.testBit 3 = (pte % 2 ^ 4).testBit 3 := testBit_low pte 3 (by decide)
  simp only [PAGE_IS_LEAF, PTE_USED, __MASKVALUE]
  rw [t0, t1, t2, t3, and_low_mask pte PAGE_ATTR_RWX (by decide),
    and_low_mask pte PTE_X (by decide), and_low_mask pte PTE_W (by decide),
    and_low_mask pte PTE_R (by decide), and_low_mask pte PTE_V (by decide),
    and_low_mask pte PTE_XWR_MASK (by decide)]
  have h : pte % 2 ^ 4 < 16 := Nat.mod_lt _ (by decide)
  generalize pte % 2 ^ 4 = y at h
  interval_cases y <;> decide

/-! ## Address layout -/

/-- C11: for every 64-bit address `a`, with `vpn_n = (a >> VPNn_SHIFT) &
__MASK(VPNn_BIT)` and `off = a & PAGE_OFFSET_MASK`, each `vpn_n` is below `512`,
`off` is below `4096`, and `(vpn2 << VPN2_SHIFT) | (vpn1 << VPN1_SHIFT) |
(vpn0 << VPN0_SHIFT) | off` is `a mod 2^39`; the address `0x0000003fc0201000`
decomposes into `VPN2 = 0xff`, `VPN1 = 1`, `VPN0 = 1`, offset `0`. -/
theorem vpn_decomposition_lossless (a : Nat) (_h : a < 2 ^ ARCH_ADDRESS_WIDTH_BITS) :
    vpn_field a VPN2_SHIFT VPN2_BIT < 512
    ∧ vpn_field a VPN1_SHIFT VPN1_BIT < 512
    ∧ vpn_field a VPN0_SHIFT VPN0_BIT < 512
    ∧ page_offset a < 4096
    ∧ (vpn_field a VPN2_SHIFT VPN2_BIT <<< VPN2_SHIFT)
        ||| (vpn_field a VPN1_SHIFT VPN1_BIT <<< VPN1_SHIFT)
        ||| (vpn_field a VPN0_SHIFT VPN0_BIT <<< VPN0_SHIFT)
        ||| page_offset a = a % 2 ^ 39
    ∧ vpn_field 0x0000003fc0201000 VPN2_SHIFT VPN2_BIT = 0xff
    ∧ vpn_field 0x0000003fc0201000 VPN1_SHIFT VPN1_BIT = 0x001
    ∧ vpn_field 0x0000003fc0201000 VPN0_SHIFT VPN0_BIT = 0x001
    ∧ page_offset 0x0000003fc0201000 = 0x000 := by
  have m9 : __MASK 9 = 2 ^ 9 - 1 := by decide
  have m12 : PAGE_OFFSET_MASK = 2 ^ 12 - 1 := by decide
  have s0 : VPN0_SHIFT = 12 := by decide
  have s1 : VPN1_SHIFT = 21 := by decide
  have s2 : VPN2_SHIFT = 30 := by decide
  have b0 : VPN0_BIT = 9 := rfl
  have b1 : VPN1_BIT = 9 := rfl
  have b2 : VPN2_BIT = 9 := rfl
  simp only [vpn_field, page_offset, s0, s1, s2, b0, b1, b2, m9, m12]
  have k9 : (2 : Nat) ^ 9 - 1 < 2 ^ 9 := by decide
  have k12 : (2 : Nat) ^ 12 - 1 < 2 ^ 12 := by decide
  refine ⟨Nat.and_lt_two_pow _ k9, Nat.and_lt_two_pow _ k9, Nat.and_lt_two_pow _ k9,
    Nat.and_lt_two_pow _ k12, ?_, by decide, by decide, by decide, by decide⟩
  apply Nat.eq_of_testBit_eq
  intro i
  simp only [Nat.testBit_or, Nat.testBit_shiftLeft, Nat.testBit_and, Nat.testBit_shiftRight,
    Nat.testBit_two_pow_sub_one, Nat.testBit_mod_two_pow]
  by_cases h12 : i < 12
  · have e1 : ¬ (i ≥ 30) := by omega
    have e2 : ¬ (i ≥ 21) := by omega
    have e3 : ¬ (i ≥ 12) := by omega
    have e4 : i < 39 := by omega
    simp [e1, e2, e3, e4, h12]
  · by_cases h21 : i < 21
    · have e1 : ¬ (i ≥ 30) := by omega
      have e2 : ¬ (i ≥ 21) := by omega
      have e3 : i ≥ 12 := by omega
      have e4 : i < 39 := by omega
      have e5 : i - 12 < 9 := by omega
      have e6 : 12 + (i - 12) = i := by omega
      simp [e1, e2, e3, e4, e5, e6, h12]
    · by_cases h30 : i < 30
      · have e1 : ¬ (i ≥ 30) := by omega
        have e2 : i ≥ 21 := by omega
        have e3 : i ≥ 12 := by omega
        have e4 : i < 39 := by omega
        have e5 : i - 21 < 9 := by omega
        have e6 : 21 + (i - 21) = i := by omega
        have e7 : ¬ (i - 12 < 9) := by omega
        simp [e1, e2, e3, e4, e5, e6, e7, h12]
      · by_cases h39 : i < 39
        · have e1 : i ≥ 30 := by omega
          have e2 : i ≥ 21 := by omega
          have e3 : i ≥ 12 := by omega
          have e5 : i - 30 < 9 := by omega
          have e6 : 30 + (i - 30) = i := by omega
          have e7 : ¬ (i - 12 < 9) := by omega
          have e8 : ¬ (i - 21 < 9) := by omega
          simp [e1, e2, e3, e5, e6, e7, e8, h12, h39]
        · have e1 : i ≥ 30 := by omega
          have e2 : i ≥ 21 := by omega
          have e3 : i ≥ 12 := by omega
          have e5 : ¬ (i - 30 < 9) := by omega
          have e7 : ¬ (i - 12 < 9) := by omega
          have e8 : ¬ (i - 21 < 9) := by omega
          simp [e1, e2, e3, e5, e7, e8, h12, h39]

/-- Witness for C11 at the address `0x0000003fc0201000`. -/
theorem vpn_decomposition_lossless_witness :
    (0x0000003fc0201000 : Nat) < 2 ^ ARCH_ADDRESS_WIDTH_BITS
    ∧ (vpn_field 0x0000003fc0201000 VPN2_SHIFT VPN2_BIT <<< VPN2_SHIFT)
        ||| (vpn_field 0x0000003fc0201000 VPN1_SHIFT VPN1_BIT <<< VPN1_SHIFT)
        ||| (vpn_field 0x0000003fc0201000 VPN0_SHIFT VPN0_BIT <<< VPN0_SHIFT)
        ||| page_offset 0x0000003fc0201000 = 0x0000003fc0201000 % 2 ^ 39 :=
  ⟨by decide, (vpn_decomposition_lossless 0x0000003fc0201000 (by decide)).2.2.2.2.1⟩

/-- C12: the layout constants tile the address: the fields are contiguous from
bit 0 without gap or overlap (`VPN0_SHIFT = PPN0_SHIFT = 12`, `VPN1_SHIFT =
PPN1_SHIFT = 21`, `VPN2_SHIFT = PPN2_SHIFT = 30`), the virtual layout ends at
`VPN2_SHIFT + VPN2_BIT = 39 = ARCH_VADDR_WIDTH` and the physical layout at
`PPN2_SHIFT + PPN2_BIT = 56 = PHYSICAL_ADDRESS_WIDTH_BITS`. -/
theorem layout_constants_tile :
    PAGE_OFFSET_SHIFT = 0
    ∧ VPN0_SHIFT = PAGE_OFFSET_SHIFT + PAGE_OFFSET_BIT
    ∧ VPN1_SHIFT = VPN0_SHIFT + VPN0_BIT
    ∧ VPN2_SHIFT = VPN1_SHIFT + VPN1_BIT
    ∧ PPN0_SHIFT = PAGE_OFFSET_SHIFT + PAGE_OFFSET_BIT
    ∧ PPN1_SHIFT = PPN0_SHIFT + PPN0_BIT
    ∧ PPN2_SHIFT = PPN1_SHIFT + PPN1_BIT
    ∧ VPN0_SHIFT = 12 ∧ PPN0_SHIFT = 12
    ∧ VPN1_SHIFT = 21 ∧ PPN1_SHIFT = 21
    ∧ VPN2_SHIFT = 30 ∧ PPN2_SHIFT = 30
    ∧ VPN2_SHIFT + VPN2_BIT = 39 ∧ VPN2_SHIFT + VPN2_BIT = ARCH_VADDR_WIDTH
    ∧ PPN2_SHIFT + PPN2_BIT = 56 ∧ PPN2_SHIFT + PPN2_BIT = PHYSICAL_ADDRESS_WIDTH_BITS := by
  decide

/-! ## Non-interference of adding write+user -/

/-- C13: in a build where `RT_ASSERT` does not abort, for every attribute word
`a` and every `prot` value `p2` different from write+user, testing `p2` after
`rt_hw_mmu_attr_add_perm(a, WRITE | USER)` gives the same result as testing `p2`
on `a` itself. -/
theorem add_write_user_non_interference (a p2 : Nat)
    (h : p2 ≠ (RT_HW_MMU_PROT_WRITE ||| RT_HW_MMU_PROT_USER)) :
    ∃ a1, rt_hw_mmu_attr_add_perm false a (RT_HW_MMU_PROT_WRITE ||| RT_HW_MMU_PROT_USER) = .ok a1
      ∧ rt_hw_mmu_attr_test_perm false a1 p2 = rt_hw_mmu_attr_test_perm false a p2
      ∧ ∃ rc, rt_hw_mmu_attr_test_perm false a p2 = .ok rc := by
  have hp : ¬ (p2 = WRITE_USER) := h
  refine ⟨_, add_perm_release a _, ?_, 0, ?_⟩
  · rw [test_perm_release, test_perm_release, if_neg hp, if_neg hp]
  · rw [test_perm_release, if_neg hp]

/-- Witness for C13: testing read+user (`0 | 4 = 4`) around adding write+user
to the word `0x13`. -/
theorem add_write_user_non_interference_witness :
    (RT_HW_MMU_PROT_READ ||| RT_HW_MMU_PROT_USER) ≠ (RT_HW_MMU_PROT_WRITE ||| RT_HW_MMU_PROT_USER)
    ∧ ∃ a1, rt_hw_mmu_attr_add_perm false 0x13 (RT_HW_MMU_PROT_WRITE ||| RT_HW_MMU_PROT_USER) = .ok a1
      ∧ rt_hw_mmu_attr_test_perm false a1 (RT_HW_MMU_PROT_READ ||| RT_HW_MMU_PROT_USER)
          = rt_hw_mmu_attr_test_perm false 0x13 (RT_HW_MMU_PROT_READ ||| RT_HW_MMU_PROT_USER)
      ∧ ∃ rc, rt_hw_mmu_attr_test_perm false 0x13 (RT_HW_MMU_PROT_READ ||| RT_HW_MMU_PROT_USER)
          = .ok rc :=
  ⟨by decide,
    add_write_user_non_interference 0x13 (RT_HW_MMU_PROT_READ ||| RT_HW_MMU_PROT_USER) (by decide)⟩

/-! ## SATP encoding -/

/-- C14: `SATP_MODE` is `SATP_MODE_SV39 = 8`, every defined mode value
(`0, 8, 9, 10, 11`) fits in 4 bits, and for every root page-frame number
`ppn < 2^44` (a 56-bit physical address without its 12-bit page offset) the word
`(SATP_MODE << SATP_MODE_OFFSET) | ppn` fits in 64 bits, has bits 63..60 equal
to `8` and its low 44 bits equal to `ppn`; the mode field and the address field
do not overlap. -/
theorem satp_mode_encoding (ppn : Nat)
    (h : ppn < 2 ^ (PHYSICAL_ADDRESS_WIDTH_BITS - PAGE_OFFSET_BIT)) :
    SATP_MODE = SATP_MODE_SV39 ∧ SATP_MODE_SV39 = 8
    ∧ SATP_MODE_BARE = 0 ∧ SATP_MODE_SV48 = 9 ∧ SATP_MODE_SV57 = 10 ∧ SATP_MODE_SV64 = 11
    ∧ SATP_MODE_BARE < 2 ^ 4 ∧ SATP_MODE_SV39 < 2 ^ 4 ∧ SATP_MODE_SV48 < 2 ^ 4
    ∧ SATP_MODE_SV57 < 2 ^ 4 ∧ SATP_MODE_SV64 < 2 ^ 4
    ∧ SATP_MODE_OFFSET = 60
    ∧ PHYSICAL_ADDRESS_WIDTH_BITS - PAGE_OFFSET_BIT = 44
    ∧ satp_word SATP_MODE ppn < 2 ^ 64
    ∧ satp_word SATP_MODE ppn >>> SATP_MODE_OFFSET = 8
    ∧ satp_word SATP_MODE ppn % 2 ^ 44 = ppn
    ∧ (SATP_MODE <<< SATP_MODE_OFFSET) &&& ppn = 0 := by
  have h44 : ppn < 2 ^ 44 := h
  have hbit : ∀ i, 44 ≤ i → ppn.testBit i = false := fun i hi =>
    Nat.testBit_lt_two_pow (lt_of_lt_of_le h44 (Nat.pow_le_pow_right (by decide) hi))
  have hm : SATP_MODE = 8 := rfl
  have ho : SATP_MODE_OFFSET = 60 := rfl
  refine ⟨rfl, rfl, rfl, rfl, rfl, rfl, by decide, by decide, by decide, by decide, by decide,
    rfl, by decide, ?_, ?_, ?_, ?_⟩
  · refine Nat.or_lt_two_pow (by decide) (lt_of_lt_of_le h44 (by decide))
  · apply Nat.eq_of_testBit_eq
    intro i
    simp only [satp_word, hm, ho, Nat.testBit_shiftRight, Nat.testBit_or, Nat.testBit_shiftLeft]
    have e1 : 60 + i ≥ 60 := by omega
    have e2 : 60 + i - 60 = i := by omega
    simp [e1, e2, hbit (60 + i) (by omega)]
  · apply Nat.eq_of_testBit_eq
    intro i
    simp only [satp_word, hm, ho, Nat.testBit_mod_two_pow, Nat.testBit_or, Nat.testBit_shiftLeft]
    by_cases hi : i < 44
    · have e1 : ¬ (i ≥ 60) := by omega
      simp [hi, e1]
    · simp [hi, hbit i (by omega)]
  · apply Nat.eq_of_testBit_eq
    intro i
    simp only [hm, ho, Nat.testBit_and, Nat.testBit_shiftLeft, Nat.zero_testBit]
    by_cases hi : i ≥ 60
    · simp [hbit i (by omega)]
    · simp [hi]

/-- Witness for C14 at the root page-frame number `0x80200`. -/
theorem satp_mode_encoding_witness :
    (0x80200 : Nat) < 2 ^ (PHYSICAL_ADDRESS_WIDTH_BITS - PAGE_OFFSET_BIT)
    ∧ satp_word SATP_MODE 0x80200 < 2 ^ 64
    ∧ satp_word SATP_MODE 0x80200 >>> SATP_MODE_OFFSET = 8
    ∧ satp_word SATP_MODE 0x80200 % 2 ^ 44 = 0x80200 :=
  ⟨by decide,
    (satp_mode_encoding 0x80200 (by decide)).2.2.2.2.2.2.2.2.2.2.2.2.2.1,
    (satp_mode_encoding 0x80200 (by decide)).2.2.2.2.2.2.2.2.2.2.2.2.2.2.1,
    (satp_mode_encoding 0x80200 (by decide)).2.2.2.2.2.2.2.2.2.2.2.2.2.2.2.1⟩

/-! ## The coded case under active assertions -/

/-- C15 (evaluation of the code): in a build where a failed `RT_ASSERT` aborts,
for every attribute word the write+user case of `rt_hw_mmu_attr_rm_perm`,
`rt_hw_mmu_attr_add_perm` and `rt_hw_mmu_attr_test_perm` runs into
`default: RT_ASSERT(0)` (the case has no `break`) and returns nothing. -/
theorem write_user_case_reaches_assert (attr : Nat) :
    rt_hw_mmu_attr_rm_perm true attr (RT_HW_MMU_PROT_WRITE ||| RT_HW_MMU_PROT_USER)
        = .error .rt_assert_failed
    ∧ rt_hw_mmu_attr_add_perm true attr (RT_HW_MMU_PROT_WRITE ||| RT_HW_MMU_PROT_USER)
        = .error .rt_assert_failed
    ∧ rt_hw_mmu_attr_test_perm true attr (RT_HW_MMU_PROT_WRITE ||| RT_HW_MMU_PROT_USER)
        = .error .rt_assert_failed := by
  simp [rt_hw_mmu_attr_rm_perm, rt_hw_mmu_attr_add_perm, rt_hw_mmu_attr_test_perm, RT_ASSERT]

/-! ## Further auxiliary facts on the write mask -/

theorem and_mod_two_pow (a b n : Nat) : (a &&& b) % 2 ^ n = (a % 2 ^ n) &&& (b % 2 ^ n) := by
  apply Nat.eq_of_testBit_eq
  intro i
  simp only [Nat.testBit_mod_two_pow, Nat.testBit_and]
  cases decide (i < n) <;> cases a.testBit i <;> cases b.testBit i <;> rfl

theorem or_mod_two_pow (a b n : Nat) : (a ||| b) % 2 ^ n = (a % 2 ^ n) ||| (b % 2 ^ n) := by
  apply Nat.eq_of_testBit_eq
  intro i
  simp only [Nat.testBit_mod_two_pow, Nat.testBit_or]
  cases decide (i < n) <;> cases a.testBit i <;> cases b.testBit i <;> rfl

theorem PTE_U_testBit (i : Nat) : PTE_U.testBit i = decide (i = 4) := by
  have h : PTE_U = 2 ^ 4 := by decide
  rw [h, Nat.testBit_two_pow]
  by_cases hi : i = 4
  · simp [hi]
  · have : ¬ (4 = i) := fun e => hi e.symm
    simp [hi, this]

theorem or_w_and_not_w (a : Nat) :
    (a ||| PTE_W) &&& size_t_of_int (~~~ (PTE_W : Int)) = a &&& size_t_of_int (~~~ (PTE_W : Int)) := by
  apply Nat.eq_of_testBit_eq
  intro i
  simp only [Nat.testBit_and, Nat.testBit_or, not_w_mask_testBit, PTE_W_testBit]
  by_cases hi : i = 2 <;> simp [hi]

theorem and_not_w_or_w (a : Nat) (h : a < 2 ^ 64) :
    (a &&& size_t_of_int (~~~ (PTE_W : Int))) ||| PTE_W = a ||| PTE_W := by
  apply Nat.eq_of_testBit_eq
  intro i
  simp only [Nat.testBit_and, Nat.testBit_or, not_w_mask_testBit, PTE_W_testBit]
  by_cases hi : i = 2
  · simp [hi]
  · by_cases h64 : i < 64
    · simp [hi, h64]
    · simp [hi, h64, word_testBit_high h (Nat.le_of_not_lt h64)]

theorem and_not_w_eq_self_iff (a : Nat) (h : a < 2 ^ 64) :
    a &&& size_t_of_int (~~~ (PTE_W : Int)) = a ↔ a &&& PTE_W = 0 := by
  constructor
  · intro e
    rw [← e]
    exact and_not_w_and_w a
  · intro e
    apply Nat.eq_of_testBit_eq
    intro i
    have e2 := congrArg (fun n => Nat.testBit n i) e
    simp only [Nat.testBit_and, PTE_W_testBit, Nat.zero_testBit] at e2
    simp only [Nat.testBit_and, not_w_mask_testBit]
    by_cases hi : i = 2
    · subst hi
      simpa using e2
    · by_cases h64 : i < 64
      · simp [hi, h64]
      · simp [hi, h64, word_testBit_high h (Nat.le_of_not_lt h64)]

theorem not_w_mask_low : size_t_of_int (~~~ (PTE_W : Int)) % 2 ^ 4 = 11 := by decide

/-! ## Leaf classification under the mutators -/

/-- C16 (as stated, refuted): adding write+user to the non-leaf preset
`PAGE_DEFAULT_ATTR_NEXT` returns a leaf word, and removing write+user from the
leaf word `PTE_W | PTE_V` returns a non-leaf word. -/
theorem leafness_not_preserved :
    (∃ r, rt_hw_mmu_attr_add_perm false PAGE_DEFAULT_ATTR_NEXT
            (RT_HW_MMU_PROT_WRITE ||| RT_HW_MMU_PROT_USER) = .ok r
        ∧ PAGE_IS_LEAF PAGE_DEFAULT_ATTR_NEXT = 0 ∧ PAGE_IS_LEAF r ≠ 0)
    ∧ (∃ r, rt_hw_mmu_attr_rm_perm false (PTE_W ||| PTE_V)
            (RT_HW_MMU_PROT_WRITE ||| RT_HW_MMU_PROT_USER) = .ok r
        ∧ PAGE_IS_LEAF (PTE_W ||| PTE_V) ≠ 0 ∧ PAGE_IS_LEAF r = 0) :=
  ⟨⟨0x25, by decide, by decide, by decide⟩, ⟨0x01, by decide, by decide, by decide⟩⟩

/-- C16 (amended): in a build where `RT_ASSERT` does not abort, for every
attribute word `a`, `PAGE_IS_LEAF` of `rt_hw_mmu_attr_rm_perm(a, WRITE | USER)`
is non-zero iff `PTE_R` or `PTE_X` is set in `a`, so the removal never makes a
non-leaf word a leaf and keeps the classification exactly when `PTE_W` is not
the only XWR bit of `a`; `PAGE_IS_LEAF` of `rt_hw_mmu_attr_add_perm(a, WRITE |
USER)` is always non-zero, so the addition keeps the classification exactly
when `a` is already a leaf. -/
theorem leafness_under_rm_add (a : Nat) :
    (∃ r, rt_hw_mmu_attr_rm_perm false a (RT_HW_MMU_PROT_WRITE ||| RT_HW_MMU_PROT_USER) = .ok r
        ∧ (PAGE_IS_LEAF r ≠ 0 ↔ (a &&& PTE_R ≠ 0 ∨ a &&& PTE_X ≠ 0))
        ∧ (PAGE_IS_LEAF r ≠ 0 → PAGE_IS_LEAF a ≠ 0)
        ∧ ((PAGE_IS_LEAF r ≠ 0 ↔ PAGE_IS_LEAF a ≠ 0) ↔ a &&& PAGE_ATTR_RWX ≠ PTE_W))
    ∧ (∃ r, rt_hw_mmu_attr_add_perm false a (RT_HW_MMU_PROT_WRITE ||| RT_HW_MMU_PROT_USER) = .ok r
        ∧ PAGE_IS_LEAF r ≠ 0
        ∧ ((PAGE_IS_LEAF r ≠ 0 ↔ PAGE_IS_LEAF a ≠ 0) ↔ PAGE_IS_LEAF a ≠ 0)) := by
  have hw : (RT_HW_MMU_PROT_WRITE ||| RT_HW_MMU_PROT_USER) = WRITE_USER := rfl
  have hy : a % 2 ^ 4 < 16 := Nat.mod_lt _ (by decide)
  have hrm : (a &&& size_t_of_int (~~~ (PTE_W : Int))) % 2 ^ 4 = (a % 2 ^ 4) &&& 11 := by
    rw [and_mod_two_pow, not_w_mask_low]
  have hadd : (a ||| PTE_W) % 2 ^ 4 = (a % 2 ^ 4) ||| 4 := by
    rw [or_mod_two_pow]; rfl
  constructor
  · refine ⟨a &&& size_t_of_int (~~~ (PTE_W : Int)), ?_, ?_⟩
    · rw [rm_perm_release, hw, if_pos rfl]
    · simp only [PAGE_IS_LEAF, __MASKVALUE]
      rw [and_low_mask (a &&& size_t_of_int (~~~ (PTE_W : Int))) PAGE_ATTR_RWX (by decide), hrm,
        and_low_mask a PAGE_ATTR_RWX (by decide), and_low_mask a PTE_R (by decide),
        and_low_mask a PTE_X (by decide)]
      generalize a % 2 ^ 4 = y at hy
      interval_cases y <;> decide
  · refine ⟨a ||| PTE_W, ?_, ?_⟩
    · rw [add_perm_release, hw, if_pos rfl]
    · simp only [PAGE_IS_LEAF, __MASKVALUE]
      rw [and_low_mask (a ||| PTE_W) PAGE_ATTR_RWX (by decide), hadd,
        and_low_mask a PAGE_ATTR_RWX (by decide)]
      generalize a % 2 ^ 4 = y at hy
      interval_cases y <;> decide

/-! ## Enumerator aliasing and unsupported requests -/

/-- C17: the case label `RT_HW_MMU_PROT_WRITE | RT_HW_MMU_PROT_USER` evaluates
to `1 | 4 = 5`, the value of `RT_HW_MMU_PROT_CACHE`; so in every build and for
every attribute word `a`, each of the three functions gives for
`prot = RT_HW_MMU_PROT_CACHE` exactly the result it gives for write+user: where
`RT_ASSERT` does not abort, a cache request clears, sets or tests `PTE_W`. -/
theorem cache_aliases_write_user (aborting : Bool) (a : Nat) :
    (RT_HW_MMU_PROT_WRITE ||| RT_HW_MMU_PROT_USER) = 5
    ∧ RT_HW_MMU_PROT_CACHE = 5
    ∧ rt_hw_mmu_attr_rm_perm aborting a RT_HW_MMU_PROT_CACHE
        = rt_hw_mmu_attr_rm_perm aborting a (RT_HW_MMU_PROT_WRITE ||| RT_HW_MMU_PROT_USER)
    ∧ rt_hw_mmu_attr_add_perm aborting a RT_HW_MMU_PROT_CACHE
        = rt_hw_mmu_attr_add_perm aborting a (RT_HW_MMU_PROT_WRITE ||| RT_HW_MMU_PROT_USER)
    ∧ rt_hw_mmu_attr_test_perm aborting a RT_HW_MMU_PROT_CACHE
        = rt_hw_mmu_attr_test_perm aborting a (RT_HW_MMU_PROT_WRITE ||| RT_HW_MMU_PROT_USER)
    ∧ rt_hw_mmu_attr_rm_perm false a RT_HW_MMU_PROT_CACHE
        = .ok (a &&& (2 ^ SIZE_T_BITS - 1 - PTE_W))
    ∧ rt_hw_mmu_attr_add_perm false a RT_HW_MMU_PROT_CACHE = .ok (a ||| PTE_W)
    ∧ rt_hw_mmu_attr_test_perm false a RT_HW_MMU_PROT_CACHE
        = .ok (if a &&& PTE_W = PTE_W then 1 else 0) := by
  have hc : RT_HW_MMU_PROT_CACHE = WRITE_USER := by decide
  refine ⟨by decide, rfl, ?_, ?_, ?_, ?_, ?_, ?_⟩
  · rw [hc]; rfl
  · rw [hc]; rfl
  · rw [hc]; rfl
  · rw [rm_perm_release, if_pos hc, not_w_mask_eq_sub]
  · rw [add_perm_release, if_pos hc]
  · rw [test_perm_release, if_pos hc, not_not_and_w]

/-- C18: in a build where `RT_ASSERT` does not abort, for every attribute word
`attr` and every `prot` whose value is not `5`, `rt_hw_mmu_attr_rm_perm` and
`rt_hw_mmu_attr_add_perm` return `attr` unchanged and
`rt_hw_mmu_attr_test_perm` returns false (`0`), whatever bits `attr` has; so
read+user tests false on `MMU_MAP_U_RW`, where `PTE_R` and `PTE_U` are set. -/
theorem unsupported_prot_release (attr prot : Nat) (h : prot ≠ 5) :
    rt_hw_mmu_attr_rm_perm false attr prot = .ok attr
    ∧ rt_hw_mmu_attr_add_perm false attr prot = .ok attr
    ∧ rt_hw_mmu_attr_test_perm false attr prot = .ok 0
    ∧ MMU_MAP_U_RW &&& PTE_R = PTE_R ∧ MMU_MAP_U_RW &&& PTE_U = PTE_U
    ∧ rt_hw_mmu_attr_test_perm false MMU_MAP_U_RW
        (RT_HW_MMU_PROT_READ ||| RT_HW_MMU_PROT_USER) = .ok 0 := by
  have hp : ¬ (prot = WRITE_USER) := by rw [WRITE_USER_eq]; exact h
  refine ⟨?_, ?_, ?_, by decide, by decide, by decide⟩
  · rw [rm_perm_release, if_neg hp]
  · rw [add_perm_release, if_neg hp]
  · rw [test_perm_release, if_neg hp]

/-- Witness for C18: a read+user request (`0 | 4 = 4`) on `MMU_MAP_U_RW`. -/
theorem unsupported_prot_release_witness :
    (RT_HW_MMU_PROT_READ ||| RT_HW_MMU_PROT_USER) ≠ 5
    ∧ rt_hw_mmu_attr_rm_perm false MMU_MAP_U_RW (RT_HW_MMU_PROT_READ ||| RT_HW_MMU_PROT_USER)
        = .ok MMU_MAP_U_RW
    ∧ rt_hw_mmu_attr_add_perm false MMU_MAP_U_RW (RT_HW_MMU_PROT_READ ||| RT_HW_MMU_PROT_USER)
        = .ok MMU_MAP_U_RW
    ∧ rt_hw_mmu_attr_test_perm false MMU_MAP_U_RW (RT_HW_MMU_PROT_READ ||| RT_HW_MMU_PROT_USER)
        = .ok 0 :=
  ⟨by decide,
    (unsupported_prot_release MMU_MAP_U_RW (RT_HW_MMU_PROT_READ ||| RT_HW_MMU_PROT_USER)
      (by decide)).1,
    (unsupported_prot_release MMU_MAP_U_RW (RT_HW_MMU_PROT_READ ||| RT_HW_MMU_PROT_USER)
      (by decide)).2.1,
    (unsupported_prot_release MMU_MAP_U_RW (RT_HW_MMU_PROT_READ ||| RT_HW_MMU_PROT_USER)
      (by decide)).2.2.1⟩

/-! ## The user bit -/

/-- C19: in a build where `RT_ASSERT` does not abort, the write+user test does
not look at the user bit: two attribute words that agree on every bit other
than `PTE_U` get the same result from `rt_hw_mmu_attr_test_perm(., WRITE |
USER)`; `rt_hw_mmu_attr_rm_perm` and `rt_hw_mmu_attr_add_perm` leave `PTE_U` as
it is; and the kernel-only writable word `MMU_MAP_K_RW` (`PTE_U` clear, `PTE_W`
set) tests true for write+user. -/
theorem user_bit_ignored (a1 a2 : Nat)
    (h : ∀ i, PTE_U.testBit i = false → a1.testBit i = a2.testBit i) :
    rt_hw_mmu_attr_test_perm false a1 (RT_HW_MMU_PROT_WRITE ||| RT_HW_MMU_PROT_USER)
        = rt_hw_mmu_attr_test_perm false a2 (RT_HW_MMU_PROT_WRITE ||| RT_HW_MMU_PROT_USER)
    ∧ (∃ rc, rt_hw_mmu_attr_test_perm false a1 (RT_HW_MMU_PROT_WRITE ||| RT_HW_MMU_PROT_USER)
        = .ok rc)
    ∧ (∀ a p, ∃ r, rt_hw_mmu_attr_rm_perm false a p = .ok r ∧ r &&& PTE_U = a &&& PTE_U)
    ∧ (∀ a p, ∃ r, rt_hw_mmu_attr_add_perm false a p = .ok r ∧ r &&& PTE_U = a &&& PTE_U)
    ∧ MMU_MAP_K_RW &&& PTE_U = 0
    ∧ MMU_MAP_K_RW &&& PTE_W = PTE_W
    ∧ rt_hw_mmu_attr_test_perm false MMU_MAP_K_RW
        (RT_HW_MMU_PROT_WRITE ||| RT_HW_MMU_PROT_USER) = .ok 1 := by
  have hw : (RT_HW_MMU_PROT_WRITE ||| RT_HW_MMU_PROT_USER) = WRITE_USER := rfl
  have hW : a1 &&& PTE_W = a2 &&& PTE_W := by
    apply Nat.eq_of_testBit_eq
    intro i
    simp only [Nat.testBit_and, PTE_W_testBit]
    by_cases hi : i = 2
    · subst hi
      rw [h 2 (by decide)]
    · simp [hi]
  refine ⟨?_, ⟨_, test_perm_release a1 _⟩, ?_, ?_, by decide, by decide, by decide⟩
  · rw [test_perm_release, test_perm_release, hW]
  · intro a p
    refine ⟨_, rm_perm_release a p, ?_⟩
    by_cases hp : p = WRITE_USER
    · rw [if_pos hp]
      apply Nat.eq_of_testBit_eq
      intro i
      simp only [Nat.testBit_and, not_w_mask_testBit, PTE_U_testBit]
      by_cases hi : i = 4
      · subst hi; simp
      · simp [hi]
    · rw [if_neg hp]
  · intro a p
    refine ⟨_, add_perm_release a p, ?_⟩
    by_cases hp : p = WRITE_USER
    · rw [if_pos hp]
      apply Nat.eq_of_testBit_eq
      intro i
      simp only [Nat.testBit_and, Nat.testBit_or, PTE_W_testBit, PTE_U_testBit]
      by_cases hi : i = 4
      · subst hi; simp
      · simp [hi]
    · rw [if_neg hp]

/-- Witness for C19: `MMU_MAP_K_RW` against the same word with `PTE_U` set. -/
theorem user_bit_ignored_witness :
    (∀ i, PTE_U.testBit i = false →
        MMU_MAP_K_RW.testBit i = (MMU_MAP_K_RW ||| PTE_U).testBit i)
    ∧ rt_hw_mmu_attr_test_perm false MMU_MAP_K_RW (RT_HW_MMU_PROT_WRITE ||| RT_HW_MMU_PROT_USER)
        = rt_hw_mmu_attr_test_perm false (MMU_MAP_K_RW ||| PTE_U)
            (RT_HW_MMU_PROT_WRITE ||| RT_HW_MMU_PROT_USER) :=
  ⟨fun i hi => by rw [Nat.testBit_or, hi, Bool.or_false],
    (user_bit_ignored MMU_MAP_K_RW (MMU_MAP_K_RW ||| PTE_U)
      (fun i hi => by rw [Nat.testBit_or, hi, Bool.or_false])).1⟩

/-! ## Composition of the two mutators -/

/-- C20: in a build where `RT_ASSERT` does not abort, for every 64-bit
attribute word `a`: removing write+user after adding it returns what the
removal alone returns, and adding it after removing it returns what the
addition alone returns; so remove-after-add returns `a` iff `PTE_W` is clear in
`a`, and add-after-remove returns `a` iff `PTE_W` is set in `a`. -/
theorem last_writer_wins (a : Nat) (h : a < 2 ^ SIZE_T_BITS) :
    (∃ a1 r,
        rt_hw_mmu_attr_add_perm false a (RT_HW_MMU_PROT_WRITE ||| RT_HW_MMU_PROT_USER) = .ok a1
        ∧ rt_hw_mmu_attr_rm_perm false a1 (RT_HW_MMU_PROT_WRITE ||| RT_HW_MMU_PROT_USER) = .ok r
        ∧ rt_hw_mmu_attr_rm_perm false a (RT_HW_MMU_PROT_WRITE ||| RT_HW_MMU_PROT_USER) = .ok r
        ∧ (r = a ↔ a &&& PTE_W = 0))
    ∧ (∃ a1 r,
        rt_hw_mmu_attr_rm_perm false a (RT_HW_MMU_PROT_WRITE ||| RT_HW_MMU_PROT_USER) = .ok a1
        ∧ rt_hw_mmu_attr_add_perm false a1 (RT_HW_MMU_PROT_WRITE ||| RT_HW_MMU_PROT_USER) = .ok r
        ∧ rt_hw_mmu_attr_add_perm false a (RT_HW_MMU_PROT_WRITE ||| RT_HW_MMU_PROT_USER) = .ok r
        ∧ (r = a ↔ a &&& PTE_W = PTE_W)) := by
  have hw : (RT_HW_MMU_PROT_WRITE ||| RT_HW_MMU_PROT_USER) = WRITE_USER := rfl
  have h64 : a < 2 ^ 64 := h
  constructor
  · refine ⟨a ||| PTE_W, a &&& size_t_of_int (~~~ (PTE_W : Int)), ?_, ?_, ?_, ?_⟩
    · rw [add_perm_release, hw, if_pos rfl]
    · rw [rm_perm_release, hw, if_pos rfl, or_w_and_not_w]
    · rw [rm_perm_release, hw, if_pos rfl]
    · exact and_not_w_eq_self_iff a h64
  · refine ⟨a &&& size_t_of_int (~~~ (PTE_W : Int)), a ||| PTE_W, ?_, ?_, ?_, ?_⟩
    · rw [rm_perm_release, hw, if_pos rfl]
    · rw [add_perm_release, hw, if_pos rfl, and_not_w_or_w a h64]
    · rw [add_perm_release, hw, if_pos rfl]
    · exact or_w_eq_self_iff a

/-- Witness for C20 at the kernel mapping word `MMU_MAP_K_RW`. -/
theorem last_writer_wins_witness :
    MMU_MAP_K_RW < 2 ^ SIZE_T_BITS
    ∧ (∃ a1 r,
        rt_hw_mmu_attr_add_perm false MMU_MAP_K_RW
            (RT_HW_MMU_PROT_WRITE ||| RT_HW_MMU_PROT_USER) = .ok a1
        ∧ rt_hw_mmu_attr_rm_perm false a1 (RT_HW_MMU_PROT_WRITE ||| RT_HW_MMU_PROT_USER) = .ok r
        ∧ rt_hw_mmu_attr_rm_perm false MMU_MAP_K_RW
            (RT_HW_MMU_PROT_WRITE ||| RT_HW_MMU_PROT_USER) = .ok r
        ∧ (r = MMU_MAP_K_RW ↔ MMU_MAP_K_RW &&& PTE_W = 0)) :=
  ⟨by decide, (last_writer_wins MMU_MAP_K_RW (by decide)).1⟩

end RiscvMmu
